import Mathlib

/-!
# Terrain3D: the application class and its camera, world and settings plumbing

A shallow embedding of `src/Src/Application/Terrain3D.cpp` (the Qt application
class `t3d::Terrain3D`) and of `src/Src/Terrian3D.cpp` (the earlier GLFW
application class of the same name), followed by theorems about them.

Conventions of the embedding:

* C++ `float`/`double` values are rationals, so all arithmetic is exact.
* A member function that mutates the object is a function from the state before
  the call to the state after it.
* Dereferencing a null pointer is the result `Except.error` with the pointer
  that was null; every other call returns `Except.ok` with the new state.
* `theCamera` is a global pointer in the sources; it is a field of the state.
* Toolkit calls (Qt windowing, signals, cursor handling) act on the `Window`
  and log fields of the state and on nothing else.
-/

namespace t3d

/-! ## Vectors -/

/-- Three floats, as in `Vec3f`. -/
structure Vec3f where
  x : ℚ
  y : ℚ
  z : ℚ
deriving DecidableEq

instance : Add Vec3f := ⟨fun a b => ⟨a.x + b.x, a.y + b.y, a.z + b.z⟩⟩

instance : Sub Vec3f := ⟨fun a b => ⟨a.x - b.x, a.y - b.y, a.z - b.z⟩⟩

instance : Neg Vec3f := ⟨fun a => ⟨-a.x, -a.y, -a.z⟩⟩

instance : HMul ℚ Vec3f Vec3f := ⟨fun k a => ⟨k * a.x, k * a.y, k * a.z⟩⟩

/-- Cursor movement since the last reset, as in `QVector2D`. -/
structure QVector2D where
  x : ℚ
  y : ℚ
deriving DecidableEq

/-! ## World and camera (namespace `World` of the sources) -/

/-- Rendering mode `World::Terrain::Mode`. -/
inductive Mode where
  | Normal
  | WireFrame
deriving DecidableEq

/-- Fields of `World::World::Configuration` that `buildWorldConfiguration` fills. -/
structure World.Configuration where
  generatorSize : Int
  generatorTextureMapResolution : Int
  generatorSmoothing : ℚ
  generatorFaultCount : Int
  generatorSeed : Int
  generatorLightIntensity : ℚ
deriving DecidableEq

/-- Fields of `World::Camera::Configuration` that `buildCameraConfiguration` fills. -/
structure Camera.Configuration where
  terrainBlockSize : Int
  terrainHeightScale : ℚ
  terrainSpacing : ℚ
  terrainSpanSize : Int
deriving DecidableEq

/-- Modelled from the spec: the class `World::World` is not in the sources. Generation is
deterministic, so a world is represented by the configuration it was last built from
(`none` before the first successful `init`). -/
structure World where
  built : Option World.Configuration
deriving DecidableEq

/-- Outcome of `World::init`, per the spec's contract `init(Configuration) -> success|failure`. -/
inductive InitResult where
  | success
  | configurationError
deriving DecidableEq

/-- Modelled from the spec: `World::init` is not in the sources. "Invalid size (≤0) or
faultCount (<0) is a configuration error reported before generation begins"; a failing call
"does not partially apply a broken configuration (all-or-nothing)" and leaves "the previous
valid World (if any) untouched"; a succeeding call "fully discards prior state and rebuilds".
The result is the outcome together with the world after the call. -/
def World.init (w : World) (configuration : World.Configuration) : InitResult × World :=
  if configuration.generatorSize ≤ 0 ∨ configuration.generatorFaultCount < 0 then
    (InitResult.configurationError, w)
  else
    (InitResult.success, { built := some configuration })

/-- Yaw and pitch of the camera. -/
structure Orientation where
  yaw : ℚ
  pitch : ℚ
deriving DecidableEq

/-- Modelled from the spec: the class `World::Camera` is not in the sources. Its state is the
spec's camera state (position, orientation, field of view), the render-mode flag, whether
`setWorld` has bound it to the application's world, and the configuration given to `init`. -/
structure Camera where
  position : Vec3f
  orientation : Orientation
  fieldOfView : ℚ
  mode : Mode
  boundToWorld : Bool
  configuration : Option Camera.Configuration
deriving DecidableEq

/-- Modelled from the spec: the parts of `World::Camera` that are not in the sources and that
the spec leaves open or defines through floating-point trigonometry: `forward()` and `right()`
("derived purely from current orientation"), `incOrientation` ("accumulates yaw/pitch", with a
pitch clamp whose range the spec leaves to the implementation) and the default field of view. -/
structure CameraOps where
  forward : Orientation → Vec3f
  right : Orientation → Vec3f
  incOrientation : Orientation → ℚ → ℚ → Orientation
  defaultFieldOfView : ℚ

/-- Modelled from the spec: `Camera::setPosition` is not in the sources; a direct setter. -/
def Camera.setPosition (c : Camera) (p : Vec3f) : Camera :=
  { c with position := p }

/-- Modelled from the spec: `Camera::setFieldOfView` is not in the sources; "direct setters
with no validation". -/
def Camera.setFieldOfView (c : Camera) (fov : ℚ) : Camera :=
  { c with fieldOfView := fov }

/-- Modelled from the spec: `Camera::setMode` is not in the sources; "direct setters with no
validation". -/
def Camera.setMode (c : Camera) (m : Mode) : Camera :=
  { c with mode := m }

/-- Modelled from the spec: `Camera::setWorld` is not in the sources; it "binds camera to a
world for any terrain-relative queries". -/
def Camera.setWorld (c : Camera) : Camera :=
  { c with boundToWorld := true }

/-- Modelled from the spec: `Camera::incPosition` is not in the sources; it "adds a world-space
displacement to position; no clamping to terrain bounds (free-fly)". -/
def Camera.incPosition (c : Camera) (delta : Vec3f) : Camera :=
  { c with position := c.position + delta }

/-- Modelled from the spec: `Camera::incOrientation` is not in the sources; the accumulation
and clamp are those of `CameraOps.incOrientation`. -/
def Camera.incOrientation (ops : CameraOps) (c : Camera) (deltaYaw deltaPitch : ℚ) : Camera :=
  { c with orientation := ops.incOrientation c.orientation deltaYaw deltaPitch }

/-- Modelled from the spec: the constructor of `World::Camera` is not in the sources. "Camera
starts at position (0,0,0), orientation (0,0)", in mode `Normal`, bound to no world. -/
def Camera.new (ops : CameraOps) : Camera :=
  { position := ⟨0, 0, 0⟩
    orientation := ⟨0, 0⟩
    fieldOfView := ops.defaultFieldOfView
    mode := Mode.Normal
    boundToWorld := false
    configuration := none }

/-- Modelled from the spec: `Camera::init(Configuration)` is not in the sources; it "sets
default position/orientation/FOV" and keeps the configuration. -/
def Camera.init (ops : CameraOps) (c : Camera) (configuration : Camera.Configuration) : Camera :=
  { c with
    position := ⟨0, 0, 0⟩
    orientation := ⟨0, 0⟩
    fieldOfView := ops.defaultFieldOfView
    configuration := some configuration }

/-! ## Settings -/

/-- Members of `Settings::Key` that the sources name. The enum declaration is not in the
sources; the order is the order of first use in `Terrain3D.cpp`. -/
inductive Settings.Key where
  | GraphicsScreenResolutionWidth
  | GraphicsScreenResolutionHeight
  | GraphicsScreenIsFullscreen
  | GraphicsCameraPositionX
  | GraphicsCameraPositionY
  | GraphicsCameraPositionZ
  | GraphicsCameraFOV
  | GraphicsCameraLOD
  | GraphicsCameraWireframe
  | WorldGeneratorSize
  | WorldGeneratorTextureMapResolution
  | WorldGeneratorSeed
  | WorldTerrainSpacing
  | WorldTerrainHeightScale
  | WorldTerrainBlockSize
  | WorldTerrainSpanSize
  | WorldGeneratorSmoothing
  | WorldGeneratorFaultCount
  | WorldTerrainLightIntensity
deriving DecidableEq

/-- Every key, in the order in which `loadUserSettings` visits the meta-enum. -/
def Settings.Key.all : List Settings.Key :=
  [ .GraphicsScreenResolutionWidth, .GraphicsScreenResolutionHeight,
    .GraphicsScreenIsFullscreen, .GraphicsCameraPositionX, .GraphicsCameraPositionY,
    .GraphicsCameraPositionZ, .GraphicsCameraFOV, .GraphicsCameraLOD,
    .GraphicsCameraWireframe, .WorldGeneratorSize, .WorldGeneratorTextureMapResolution,
    .WorldGeneratorSeed, .WorldTerrainSpacing, .WorldTerrainHeightScale,
    .WorldTerrainBlockSize, .WorldTerrainSpanSize, .WorldGeneratorSmoothing,
    .WorldGeneratorFaultCount, .WorldTerrainLightIntensity ]

/-- A `QVariant`, seen through the three conversions the sources use. -/
structure QVariant where
  toInt : Int
  toFloat : ℚ
  toBool : Bool
deriving DecidableEq

/-- The `QVariant` that C++ builds from a `bool` argument. -/
def QVariant.ofBool (b : Bool) : QVariant :=
  { toInt := if b then 1 else 0, toFloat := if b then 1 else 0, toBool := b }

/-- Modelled from the spec: the class `Settings` is not in the sources. It stores one value
per key and records whether the application registered itself with `addListener`; "each key
change is delivered as a (key, value) event" to a registered listener. -/
structure Settings where
  value : Settings.Key → QVariant
  hasListener : Bool

/-- Registration done by the constructor of `Terrain3D`. -/
def Settings.addListener (settings : Settings) : Settings :=
  { settings with hasListener := true }

/-- Storing part of `Settings::setValue`. -/
def Settings.store (settings : Settings) (key : Settings.Key) (v : QVariant) : Settings :=
  { settings with value := fun k => if k = key then v else settings.value k }

/-! ## Window, camera item and the application object -/

/-- `QWindow::Visibility`. -/
inductive Visibility where
  | Hidden
  | AutomaticVisibility
  | Windowed
  | Minimized
  | Maximized
  | FullScreen
deriving DecidableEq

/-- Result of the `QSurfaceFormat` calls in `init`. -/
structure QSurfaceFormat where
  majorVersion : Nat
  minorVersion : Nat
  compatibilityProfile : Bool
deriving DecidableEq

/-- The part of the `QQuickView` base object that `Terrain3D.cpp` reads or writes. -/
structure Window where
  visibility : Visibility
  width : Int
  height : Int
  capturesCursor : Bool
  closed : Bool
  format : Option QSurfaceFormat
  persistentOpenGLContext : Bool
  persistentSceneGraph : Bool
  sizeRootObjectToView : Bool
  sourceLoaded : Bool
deriving DecidableEq

/-- A window as the toolkit creates it, before `init`. -/
def Window.created : Window :=
  { visibility := Visibility.Hidden, width := 0, height := 0, capturesCursor := false,
    closed := false, format := none, persistentOpenGLContext := false,
    persistentSceneGraph := false, sizeRootObjectToView := false, sourceLoaded := false }

/-- `QWindow::resize`. -/
def Window.resize (w : Window) (width height : Int) : Window :=
  { w with width := width, height := height }

/-- `QWindow::showFullScreen`. -/
def Window.showFullScreen (w : Window) : Window :=
  { w with visibility := Visibility.FullScreen }

/-- `QWindow::showNormal`. -/
def Window.showNormal (w : Window) : Window :=
  { w with visibility := Visibility.Windowed }

/-- `QWindow::show` on a desktop platform, where a top-level window opens windowed. -/
def Window.show (w : Window) : Window :=
  { w with visibility := Visibility.Windowed }

/-- The QML item `QuickItems::CameraItem`, of which the sources read `isFrozen()`. -/
structure CameraItem where
  isFrozen : Bool
deriving DecidableEq

/-- Signals that `Terrain3D` emits. -/
inductive Signal where
  | refreshSettingsMenu
  | toggleSettingsMenu
deriving DecidableEq

/-- State of the member `backgroundUpdater`. -/
structure BackgroundUpdater where
  connected : Bool
  running : Bool
deriving DecidableEq

/-- A null pointer that a call dereferenced. -/
inductive Fault where
  | nullCamera
  | nullCameraItem
deriving DecidableEq

/-- What a call reads from the toolkit: `QWindow::isActive()`, `mouseButtonLeftPressed()`,
the value of `consumeCursorDelta()` and the result of `findChild` for `t3d_mainCamera`. -/
structure Ambient where
  isActive : Bool
  mouseButtonLeftPressed : Bool
  cursorDelta : QVector2D
  findChild : Option CameraItem
deriving DecidableEq

/-- The application object of `Application/Terrain3D.cpp`: its members, the global
`theCamera`, and the toolkit state it acts on. `emitted` lists the signals emitted so far,
the latest first; `cursorResets` counts the calls of `resetCursorPosition`. -/
structure Terrain3D where
  mPreviouslyHadFocus : Bool
  mNeedsRestart : Bool
  mMainSettings : Settings
  mCameraItem : Option CameraItem
  mWorld : World
  theCamera : Option Camera
  window : Window
  backgroundUpdater : BackgroundUpdater
  emitted : List Signal
  cursorResets : Nat

namespace Terrain3D

/-- The constructor `Terrain3D::Terrain3D(Settings *mainSettings)`. The global `theCamera`
has static storage and starts null. -/
def new (mainSettings : Settings) : Terrain3D :=
  { mPreviouslyHadFocus := false
    mNeedsRestart := false
    mMainSettings := mainSettings.addListener
    mCameraItem := none
    mWorld := { built := none }
    theCamera := none
    window := Window.created
    backgroundUpdater := { connected := false, running := false }
    emitted := []
    cursorResets := 0 }

/-- Dereference of `theCamera`. -/
def camera (s : Terrain3D) : Except Fault Camera :=
  match s.theCamera with
  | none => Except.error Fault.nullCamera
  | some c => Except.ok c

/-- Dereference of `mCameraItem`. -/
def cameraItem (s : Terrain3D) : Except Fault CameraItem :=
  match s.mCameraItem with
  | none => Except.error Fault.nullCameraItem
  | some item => Except.ok item

/-- An `emit` statement. -/
def emit (s : Terrain3D) (sig : Signal) : Terrain3D :=
  { s with emitted := sig :: s.emitted }

/-- Body of `CASE(WorldGeneratorSize)`: a TODO comment and `break`. The case
`GraphicsCameraWireframe` has no `break` and runs into it. -/
def caseWorldGeneratorSize (s : Terrain3D) : Except Fault Terrain3D :=
  Except.ok s

/-- The listener `Terrain3D::settingsValueChanged(Settings::Key key, const QVariant &value)`. -/
def settingsValueChanged (s : Terrain3D) (key : Settings.Key) (value : QVariant) :
    Except Fault Terrain3D :=
  match key with
  | .GraphicsScreenResolutionWidth =>
    Except.ok { s with window := s.window.resize value.toInt s.window.height }
  | .GraphicsScreenResolutionHeight =>
    Except.ok { s with window := s.window.resize s.window.width value.toInt }
  | .GraphicsScreenIsFullscreen =>
    Except.ok { s with window :=
      if value.toBool then s.window.showFullScreen else s.window.showNormal }
  | .GraphicsCameraPositionX =>
    match s.camera with
    | Except.error f => Except.error f
    | Except.ok cam =>
      let c := cam.position
      Except.ok { s with theCamera := some (cam.setPosition ⟨value.toFloat, c.y, c.z⟩) }
  | .GraphicsCameraPositionY =>
    match s.camera with
    | Except.error f => Except.error f
    | Except.ok cam =>
      let c := cam.position
      Except.ok { s with theCamera := some (cam.setPosition ⟨c.x, value.toFloat, c.z⟩) }
  | .GraphicsCameraPositionZ =>
    match s.camera with
    | Except.error f => Except.error f
    | Except.ok cam =>
      let c := cam.position
      Except.ok { s with theCamera := some (cam.setPosition ⟨c.x, c.y, value.toFloat⟩) }
  | .GraphicsCameraFOV =>
    match s.camera with
    | Except.error f => Except.error f
    | Except.ok cam =>
      Except.ok { s with theCamera := some (cam.setFieldOfView value.toFloat) }
  | .GraphicsCameraLOD => Except.ok s
  | .GraphicsCameraWireframe =>
    match s.camera with
    | Except.error f => Except.error f
    | Except.ok cam =>
      let cam1 := cam.setMode (if value.toBool then Mode.WireFrame else Mode.Normal)
      caseWorldGeneratorSize { s with theCamera := some cam1 }
  | .WorldGeneratorSize => caseWorldGeneratorSize s
  | .WorldGeneratorTextureMapResolution => Except.ok s
  | .WorldGeneratorSeed => Except.ok s
  | .WorldTerrainSpacing => Except.ok s
  | .WorldTerrainHeightScale => Except.ok s
  | .WorldTerrainBlockSize => Except.ok s
  | .WorldTerrainSpanSize => Except.ok s
  | .WorldGeneratorSmoothing => Except.ok s
  | .WorldGeneratorFaultCount => Except.ok s
  | .WorldTerrainLightIntensity => Except.ok s

/-- Modelled from the spec: `Settings::setValue` is not in the sources. The value is stored
and, the application being a registered listener, "delivered as a (key, value) event" to
`settingsValueChanged`. -/
def settingsSetValue (s : Terrain3D) (key : Settings.Key) (v : QVariant) :
    Except Fault Terrain3D :=
  let s1 := { s with mMainSettings := s.mMainSettings.store key v }
  if s1.mMainSettings.hasListener then s1.settingsValueChanged key v else Except.ok s1

/-- The member `Terrain3D::toggleCaptureCursor()`. -/
def toggleCaptureCursor (s : Terrain3D) : Terrain3D :=
  { s with window := { s.window with capturesCursor := !s.window.capturesCursor } }

/-- The member `Terrain3D::toggleFullscreen()`. -/
def toggleFullscreen (s : Terrain3D) : Except Fault Terrain3D :=
  let s1 := { s with window :=
    if s.window.visibility = Visibility.FullScreen then s.window.showNormal
    else s.window.showFullScreen }
  match s1.settingsSetValue Settings.Key.GraphicsScreenIsFullscreen
      (QVariant.ofBool (decide (s1.window.visibility = Visibility.FullScreen))) with
  | Except.error f => Except.error f
  | Except.ok s2 => Except.ok (s2.emit Signal.refreshSettingsMenu)

/-- The member `Terrain3D::toggleWireframe()`. -/
def toggleWireframe (s : Terrain3D) : Except Fault Terrain3D :=
  match s.camera with
  | Except.error f => Except.error f
  | Except.ok camera =>
    let camera1 :=
      if camera.mode = Mode.Normal then camera.setMode Mode.WireFrame
      else camera.setMode Mode.Normal
    let s1 := { s with theCamera := some camera1 }
    match s1.settingsSetValue Settings.Key.GraphicsCameraWireframe
        (QVariant.ofBool (decide (camera1.mode = Mode.WireFrame))) with
    | Except.error f => Except.error f
    | Except.ok s2 => Except.ok (s2.emit Signal.refreshSettingsMenu)

end Terrain3D

/-- Key codes that the sources name (`Qt::Key_W`, `GLFW_KEY_W` and so on); every other code
is `other`. -/
inductive Key where
  | W
  | S
  | A
  | D
  | X
  | R
  | Escape
  | F1
  | F5
  | F10
  | F11
  | other (code : Nat)
deriving DecidableEq

namespace Terrain3D

/-- The inherited `QWindow::close()`. -/
def close (s : Terrain3D) : Terrain3D :=
  { s with window := { s.window with closed := true } }

/-- Modelled from the spec: `Terrain3D::requestRestart` is declared outside the sources. A
restart is a request that "simply supersedes in-progress state" later on; the call itself
records it in `mNeedsRestart`, the flag the constructor clears. -/
def requestRestart (s : Terrain3D) : Terrain3D :=
  { s with mNeedsRestart := true }

/-- The inherited `resetCursorPosition()`, counted. -/
def resetCursorPosition (s : Terrain3D) : Terrain3D :=
  { s with cursorResets := s.cursorResets + 1 }

/-- The event handler `Terrain3D::keyPressEvent(QKeyEvent *ev)`; `ev` stands for
`ev->key()`. The first statement, the call of the base handler `QQuickView::keyPressEvent`,
is toolkit code and has no counterpart here. The condition `cameraPtr && ...` reads
`mCameraItem` only when `cameraPtr` is not null. -/
def keyPressEvent (ops : CameraOps) (s : Terrain3D) (ev : Key) : Except Fault Terrain3D :=
  let speed : ℚ := 7 / 4
  let afterCamera : Except Fault Terrain3D :=
    match s.theCamera with
    | none => Except.ok s
    | some cameraPtr =>
      match s.cameraItem with
      | Except.error f => Except.error f
      | Except.ok item =>
        if !item.isFrozen then
          match ev with
          | Key.W =>
            let moved := cameraPtr.incPosition (speed * ops.forward cameraPtr.orientation)
            Except.ok { s with theCamera := some moved }
          | Key.S =>
            let moved := cameraPtr.incPosition (speed * (-ops.forward cameraPtr.orientation))
            Except.ok { s with theCamera := some moved }
          | Key.A =>
            let moved := cameraPtr.incPosition (speed * (-ops.right cameraPtr.orientation))
            Except.ok { s with theCamera := some moved }
          | Key.D =>
            let moved := cameraPtr.incPosition (speed * ops.right cameraPtr.orientation)
            Except.ok { s with theCamera := some moved }
          | Key.X => s.toggleWireframe
          | _ => Except.ok s
        else Except.ok s
  match afterCamera with
  | Except.error f => Except.error f
  | Except.ok s1 =>
    match ev with
    | Key.Escape => Except.ok s1.close
    | Key.F1 => Except.ok s1.toggleCaptureCursor
    | Key.F5 => Except.ok s1.requestRestart
    | Key.F10 => Except.ok (s1.emit Signal.toggleSettingsMenu)
    | Key.F11 => s1.toggleFullscreen
    | _ => Except.ok s1

/-- The member `Terrain3D::updateCursorPos()`. The literal `0.1f` is the binary32 value
13421773 / 2^27. -/
def updateCursorPos (ops : CameraOps) (env : Ambient) (s : Terrain3D) :
    Except Fault Terrain3D :=
  match s.cameraItem with
  | Except.error f => Except.error f
  | Except.ok item =>
    if item.isFrozen || (!s.window.capturesCursor && env.mouseButtonLeftPressed == false) then
      Except.ok s
    else if env.isActive then
      let s1 :=
        if !s.mPreviouslyHadFocus then s.resetCursorPosition
        else
          match s.theCamera with
          | some cam =>
            let mouseSensitivity : ℚ := 13421773 / 134217728
            let delta := env.cursorDelta
            let turned :=
              cam.incOrientation ops (delta.x * mouseSensitivity) (delta.y * mouseSensitivity)
            resetCursorPosition { s with theCamera := some turned }
          | none => s
      Except.ok { s1 with mPreviouslyHadFocus := true }
    else
      Except.ok { s with mPreviouslyHadFocus := false }

/-- The loop of `loadUserSettings` over the keys `keys`: each key is delivered to
`settingsValueChanged` with its stored value. -/
def loadKeys (s : Terrain3D) : List Settings.Key → Except Fault Terrain3D
  | [] => Except.ok s
  | key :: keys =>
    match s.settingsValueChanged key (s.mMainSettings.value key) with
    | Except.error f => Except.error f
    | Except.ok s1 => s1.loadKeys keys

/-- The member `Terrain3D::loadUserSettings()`. -/
def loadUserSettings (s : Terrain3D) : Except Fault Terrain3D :=
  s.loadKeys Settings.Key.all

/-- The member `Terrain3D::buildCameraConfiguration()`. -/
def buildCameraConfiguration (s : Terrain3D) : Camera.Configuration :=
  { terrainBlockSize := (s.mMainSettings.value Settings.Key.WorldTerrainBlockSize).toInt
    terrainHeightScale := (s.mMainSettings.value Settings.Key.WorldTerrainHeightScale).toFloat
    terrainSpacing := (s.mMainSettings.value Settings.Key.WorldTerrainSpacing).toFloat
    terrainSpanSize := (s.mMainSettings.value Settings.Key.WorldTerrainSpanSize).toInt }

/-- The member `Terrain3D::buildWorldConfiguration()`. -/
def buildWorldConfiguration (s : Terrain3D) : World.Configuration :=
  { generatorSize := (s.mMainSettings.value Settings.Key.WorldGeneratorSize).toInt
    generatorTextureMapResolution :=
      (s.mMainSettings.value Settings.Key.WorldGeneratorTextureMapResolution).toInt
    generatorSmoothing := (s.mMainSettings.value Settings.Key.WorldGeneratorSmoothing).toFloat
    generatorFaultCount := (s.mMainSettings.value Settings.Key.WorldGeneratorFaultCount).toInt
    generatorSeed := (s.mMainSettings.value Settings.Key.WorldGeneratorSeed).toInt
    generatorLightIntensity :=
      (s.mMainSettings.value Settings.Key.WorldTerrainLightIntensity).toFloat }

/-- The member `Terrain3D::init()`. The value of `mWorld.init(...)` is discarded, as in the
source, and the two camera calls follow it unconditionally. -/
def init (ops : CameraOps) (s : Terrain3D) : Except Fault Terrain3D :=
  let format : QSurfaceFormat :=
    { majorVersion := 4, minorVersion := 2, compatibilityProfile := true }
  let s1 := { s with window := Window.show { s.window with
    format := some format
    persistentOpenGLContext := true
    persistentSceneGraph := true
    sizeRootObjectToView := true
    sourceLoaded := true } }
  let s2 := { s1 with theCamera := some (Camera.new ops) }
  match s2.loadUserSettings with
  | Except.error f => Except.error f
  | Except.ok s3 =>
    let s4 := { s3 with mWorld := (s3.mWorld.init s3.buildWorldConfiguration).2 }
    match s4.camera with
    | Except.error f => Except.error f
    | Except.ok cam =>
      let s5 := { s4 with theCamera := some cam.setWorld }
      match s5.camera with
      | Except.error f => Except.error f
      | Except.ok cam1 =>
        let s6 := { s5 with theCamera := some (cam1.init ops s5.buildCameraConfiguration) }
        Except.ok { s6 with backgroundUpdater := { connected := true, running := true } }

/-- The slot `Terrain3D::willUpdate()`. -/
def willUpdate (ops : CameraOps) (env : Ambient) (s : Terrain3D) : Except Fault Terrain3D :=
  match s.mCameraItem with
  | none => Except.ok { s with mCameraItem := env.findChild }
  | some _ => s.updateCursorPos ops env

/-- The camera's mode, when there is a camera. -/
def cameraMode (s : Terrain3D) : Option Mode :=
  s.theCamera.map Camera.mode

/-- The camera's position, when there is a camera. -/
def cameraPosition (s : Terrain3D) : Option Vec3f :=
  s.theCamera.map Camera.position

/-- Delivery of a list of (key, value) events to `settingsValueChanged`, first to last. -/
def deliver (s : Terrain3D) : List (Settings.Key × QVariant) → Except Fault Terrain3D
  | [] => Except.ok s
  | e :: es =>
    match s.settingsValueChanged e.1 e.2 with
    | Except.error f => Except.error f
    | Except.ok s1 => s1.deliver es

end Terrain3D

/-! ## Sequences of `updateCursorPos` calls -/

/-- What one call of `updateCursorPos` finds: the item's frozen flag, the cursor-capture
flag and the toolkit readings. Other code may change the first two between calls. -/
structure CursorTick where
  isFrozen : Bool
  capturesCursor : Bool
  env : Ambient
deriving DecidableEq

namespace Terrain3D

end Terrain3D

/-! ## The GLFW application class of `Src/Terrian3D.cpp` -/

/-- Modelled from the spec: `Camera::init(World*)` of the GLFW version is not in the sources;
it "binds camera to a world for any terrain-relative queries; sets default
position/orientation/FOV". -/
def Camera.initWithWorld (ops : CameraOps) (c : Camera) : Camera :=
  { c with
    boundToWorld := true
    position := ⟨0, 0, 0⟩
    orientation := ⟨0, 0⟩
    fieldOfView := ops.defaultFieldOfView }

/-- The application object of `Src/Terrian3D.cpp` (also named `Terrain3D` there): the members
`mWorld` and `mCamera`, and whether `terminate()` was called. `worldConfiguration` stands
for the parameters that the argument-less `World::init()` of that version uses. -/
structure GlfwTerrain3D where
  mWorld : World
  mCamera : Camera
  terminated : Bool
  worldConfiguration : World.Configuration
deriving DecidableEq

namespace GlfwTerrain3D

/-- The handler `Terrain3D::onKey(int key, int action)` of `Src/Terrian3D.cpp`. `action` is
not read. The literal `0.19f` is the binary32 value 3187671 / 2^24. The value of
`mWorld.init()` is discarded, as in the source. -/
def onKey (ops : CameraOps) (s : GlfwTerrain3D) (key : Key) (_action : Int) : GlfwTerrain3D :=
  let speed : ℚ := 3187671 / 16777216
  match key with
  | Key.Escape => { s with terminated := true }
  | Key.W =>
    { s with mCamera := s.mCamera.incPosition (speed * ops.forward s.mCamera.orientation) }
  | Key.S =>
    { s with mCamera := s.mCamera.incPosition (speed * (-ops.forward s.mCamera.orientation)) }
  | Key.A =>
    { s with mCamera := s.mCamera.incPosition (speed * (-ops.right s.mCamera.orientation)) }
  | Key.D =>
    { s with mCamera := s.mCamera.incPosition (speed * ops.right s.mCamera.orientation) }
  | Key.R =>
    let s1 := { s with mWorld := (s.mWorld.init s.worldConfiguration).2 }
    { s1 with mCamera := s1.mCamera.initWithWorld ops }
  | _ => s

end GlfwTerrain3D

/-! ## Concrete values -/

/-- Camera operations of a camera that looks down the negative z axis whatever its
orientation, with the pitch clamp [-89, 89] that the spec gives as an example. -/
def fixedAxesOps : CameraOps :=
  { forward := fun _ => ⟨0, 0, -1⟩
    right := fun _ => ⟨1, 0, 0⟩
    incOrientation := fun o deltaYaw deltaPitch =>
      ⟨o.yaw + deltaYaw, max (-89) (min 89 (o.pitch + deltaPitch))⟩
    defaultFieldOfView := 50 }

/-- A settings store in which every value is zero, so that `WorldGeneratorSize` is 0. -/
def zeroSettings : Settings :=
  { value := fun _ => ⟨0, 0, false⟩, hasListener := false }

/-- The camera after `init` with `zeroSettings`. -/
def startedCamera : Camera :=
  { position := ⟨0, 0, 0⟩
    orientation := ⟨0, 0⟩
    fieldOfView := 50
    mode := Mode.Normal
    boundToWorld := true
    configuration := some ⟨0, 0, 0, 0⟩ }

/-- The application after the constructor with `zeroSettings`, `init`, and a first
`willUpdate` that finds an unfrozen camera item. -/
def startedApp : Terrain3D :=
  { mPreviouslyHadFocus := false
    mNeedsRestart := false
    mMainSettings := { value := fun _ => ⟨0, 0, false⟩, hasListener := true }
    mCameraItem := some ⟨false⟩
    mWorld := { built := none }
    theCamera := some startedCamera
    window :=
      { visibility := Visibility.Windowed, width := 0, height := 0, capturesCursor := false,
        closed := false, format := some ⟨4, 2, true⟩, persistentOpenGLContext := true,
        persistentSceneGraph := true, sizeRootObjectToView := true, sourceLoaded := true }
    backgroundUpdater := { connected := true, running := true }
    emitted := []
    cursorResets := 0 }

/-- The same application with the camera item frozen. -/
def frozenApp : Terrain3D :=
  { startedApp with mCameraItem := some ⟨true⟩ }

/-- A call of `updateCursorPos` with the cursor captured, the window active and the cursor
moved by (10, 0). -/
def focusedTick : CursorTick :=
  { isFrozen := false, capturesCursor := true,
    env := { isActive := true, mouseButtonLeftPressed := false, cursorDelta := ⟨10, 0⟩,
             findChild := none } }

/-- A GLFW application whose world was built from a valid configuration and whose current
parameters are invalid (size 0). -/
def glfwApp : GlfwTerrain3D :=
  { mWorld := { built := some ⟨64, 64, 2, 50, 42, 1⟩ }
    mCamera :=
      { position := ⟨3, 4, 5⟩, orientation := ⟨0, 0⟩, fieldOfView := 50, mode := Mode.Normal,
        boundToWorld := false, configuration := none }
    terminated := false
    worldConfiguration := ⟨0, 64, 2, 50, 42, 1⟩ }

/-! ## Theorems -/

theorem Vec3f.add_eq (a b : Vec3f) : a + b = ⟨a.x + b.x, a.y + b.y, a.z + b.z⟩ := rfl

theorem Vec3f.sub_eq (a b : Vec3f) : a - b = ⟨a.x - b.x, a.y - b.y, a.z - b.z⟩ := rfl

theorem Vec3f.neg_eq (a : Vec3f) : -a = ⟨-a.x, -a.y, -a.z⟩ := rfl

theorem Vec3f.smul_eq (k : ℚ) (a : Vec3f) : k * a = ⟨k * a.x, k * a.y, k * a.z⟩ := rfl

/-- Adding a scaled negated vector is subtracting the scaled vector. -/
theorem Vec3f.add_smul_neg (p f : Vec3f) (k : ℚ) : p + k * (-f) = p - k * f := by
  simp only [Vec3f.add_eq, Vec3f.sub_eq, Vec3f.neg_eq, Vec3f.smul_eq, Vec3f.mk.injEq]
  refine ⟨?_, ?_, ?_⟩ <;> ring

/-- A displacement followed by the opposite displacement is no displacement. -/
theorem Vec3f.add_smul_add_smul_neg (p f : Vec3f) (k : ℚ) : p + k * f + k * (-f) = p := by
  cases p
  simp only [Vec3f.add_eq, Vec3f.neg_eq, Vec3f.smul_eq, Vec3f.mk.injEq]
  refine ⟨?_, ?_, ?_⟩ <;> ring

namespace Terrain3D

/-- What `toggleFullscreen` returns: it never fails and does not touch the camera. -/
theorem toggleFullscreen_eq (s : Terrain3D) :
    s.toggleFullscreen = Except.ok
      { s with
        window :=
          if s.window.visibility = Visibility.FullScreen then s.window.showNormal
          else s.window.showFullScreen
        mMainSettings := s.mMainSettings.store Settings.Key.GraphicsScreenIsFullscreen
          (QVariant.ofBool (decide (s.window.visibility ≠ Visibility.FullScreen)))
        emitted := Signal.refreshSettingsMenu :: s.emitted } := by
  by_cases hv : s.window.visibility = Visibility.FullScreen <;>
    cases hl : s.mMainSettings.hasListener <;>
    simp [toggleFullscreen, settingsSetValue, settingsValueChanged, emit, hv, hl,
      Window.showNormal, Window.showFullScreen, Settings.store, QVariant.ofBool]

/-- What `toggleWireframe` returns when there is a camera. -/
theorem toggleWireframe_of_some (s : Terrain3D) (c : Camera) (h : s.theCamera = some c) :
    s.toggleWireframe = Except.ok
      { s with
        theCamera := some (c.setMode (if c.mode = Mode.Normal then Mode.WireFrame else Mode.Normal))
        mMainSettings := s.mMainSettings.store Settings.Key.GraphicsCameraWireframe
          (QVariant.ofBool (decide (c.mode = Mode.Normal)))
        emitted := Signal.refreshSettingsMenu :: s.emitted } := by
  cases hm : c.mode <;> cases hl : s.mMainSettings.hasListener <;>
    simp [toggleWireframe, camera, h, hm, hl, settingsSetValue, settingsValueChanged,
      caseWorldGeneratorSize, emit, Camera.setMode, Settings.store, QVariant.ofBool]

/-- A list that is a permutation of three elements is one of their six orders. -/
theorem perm_three {α : Type} {l : List α} {x y z : α} (h : l.Perm [x, y, z]) :
    l = [x, y, z] ∨ l = [x, z, y] ∨ l = [y, x, z] ∨ l = [y, z, x] ∨ l = [z, x, y] ∨
      l = [z, y, x] := by
  have hmem := List.mem_permutations.2 h
  simp [List.permutations, List.permutationsAux_cons, List.permutationsAux2] at hmem
  tauto

/-- C4: with a camera present, `toggleWireframe` turns mode `Normal` into `WireFrame` and
`WireFrame` into `Normal`, a second call restores the original mode, and after each call the
value stored under `GraphicsCameraWireframe` is true exactly when the camera mode is
`WireFrame`. -/
theorem toggleWireframe_flips_mode (s : Terrain3D) (c : Camera) (h : s.theCamera = some c) :
    ∃ s1 s2, s.toggleWireframe = Except.ok s1 ∧ s1.toggleWireframe = Except.ok s2 ∧
      (c.mode = Mode.Normal → s1.cameraMode = some Mode.WireFrame) ∧
      (c.mode = Mode.WireFrame → s1.cameraMode = some Mode.Normal) ∧
      s2.cameraMode = some c.mode ∧
      ((s1.mMainSettings.value Settings.Key.GraphicsCameraWireframe).toBool = true ↔
        s1.cameraMode = some Mode.WireFrame) ∧
      ((s2.mMainSettings.value Settings.Key.GraphicsCameraWireframe).toBool = true ↔
        s2.cameraMode = some Mode.WireFrame) := by
  refine ⟨_, _, toggleWireframe_of_some s c h, toggleWireframe_of_some _ _ rfl, ?_⟩
  cases hm : c.mode <;>
    simp [cameraMode, Camera.setMode, Settings.store, QVariant.ofBool, hm]

/-- C5: with a camera present, `settingsValueChanged` for `GraphicsCameraPositionX`,
`GraphicsCameraPositionY` or `GraphicsCameraPositionZ` replaces that component of the camera
position by the value and changes nothing else; the three events with values `a`, `b`, `c`,
delivered in any order, leave the position at `(a, b, c)` and the rest of the state as it
was. -/
theorem settingsValueChanged_position (s : Terrain3D) (cam : Camera) (a b c : QVariant)
    (h : s.theCamera = some cam) :
    s.settingsValueChanged Settings.Key.GraphicsCameraPositionX a = Except.ok
        { s with theCamera := some { cam with
            position := ⟨a.toFloat, cam.position.y, cam.position.z⟩ } } ∧
      s.settingsValueChanged Settings.Key.GraphicsCameraPositionY b = Except.ok
        { s with theCamera := some { cam with
            position := ⟨cam.position.x, b.toFloat, cam.position.z⟩ } } ∧
      s.settingsValueChanged Settings.Key.GraphicsCameraPositionZ c = Except.ok
        { s with theCamera := some { cam with
            position := ⟨cam.position.x, cam.position.y, c.toFloat⟩ } } ∧
      ∀ events : List (Settings.Key × QVariant),
        events.Perm [(Settings.Key.GraphicsCameraPositionX, a),
          (Settings.Key.GraphicsCameraPositionY, b),
          (Settings.Key.GraphicsCameraPositionZ, c)] →
        s.deliver events = Except.ok
          { s with theCamera := some { cam with
              position := ⟨a.toFloat, b.toFloat, c.toFloat⟩ } } := by
  refine ⟨?_, ?_, ?_, ?_⟩
  · simp [settingsValueChanged, camera, h, Camera.setPosition]
  · simp [settingsValueChanged, camera, h, Camera.setPosition]
  · simp [settingsValueChanged, camera, h, Camera.setPosition]
  · intro events hperm
    rcases perm_three hperm with he | he | he | he | he | he <;> subst he <;>
      simp [deliver, settingsValueChanged, camera, h, Camera.setPosition]

/-- C6: `settingsValueChanged` with a world or terrain key, whatever the value, returns the
state it was given: world, camera and everything else are unchanged. -/
theorem settingsValueChanged_world_key (s : Terrain3D) (key : Settings.Key) (value : QVariant)
    (h : key ∈ [Settings.Key.WorldGeneratorSize, Settings.Key.WorldGeneratorTextureMapResolution,
      Settings.Key.WorldGeneratorSeed, Settings.Key.WorldTerrainSpacing,
      Settings.Key.WorldTerrainHeightScale, Settings.Key.WorldTerrainBlockSize,
      Settings.Key.WorldTerrainSpanSize, Settings.Key.WorldGeneratorSmoothing,
      Settings.Key.WorldGeneratorFaultCount, Settings.Key.WorldTerrainLightIntensity]) :
    s.settingsValueChanged key value = Except.ok s := by
  simp only [List.mem_cons, List.mem_singleton, List.not_mem_nil, or_false] at h
  rcases h with h | h | h | h | h | h | h | h | h | h <;> subst h <;>
    simp [settingsValueChanged, caseWorldGeneratorSize]

/-- C7: with a camera present, `settingsValueChanged` for `GraphicsCameraWireframe` sets the
camera mode to `WireFrame` when the value is true and to `Normal` otherwise and changes
nothing else (the case it falls through to does nothing); delivering the same event again
returns the same state. -/
theorem settingsValueChanged_wireframe (s : Terrain3D) (cam : Camera) (value : QVariant)
    (h : s.theCamera = some cam) :
    ∃ s1, s1 = { s with theCamera := some { cam with
          mode := if value.toBool then Mode.WireFrame else Mode.Normal } } ∧
      s.settingsValueChanged Settings.Key.GraphicsCameraWireframe value = Except.ok s1 ∧
      s1.settingsValueChanged Settings.Key.GraphicsCameraWireframe value = Except.ok s1 := by
  refine ⟨_, rfl, ?_, ?_⟩ <;>
    simp [settingsValueChanged, caseWorldGeneratorSize, camera, h, Camera.setMode]

/-- C1: with a camera present and the camera item not frozen, `keyPressEvent` with W, S, D
or A replaces the camera position `p` by `p + 1.75*forward()`, `p - 1.75*forward()`,
`p + 1.75*right()` or `p - 1.75*right()`, unclamped, and changes nothing else; W followed by
S, and D followed by A, return the state before the two events. -/
theorem keyPressEvent_moves_camera (ops : CameraOps) (s : Terrain3D) (cam : Camera)
    (item : CameraItem) (hc : s.theCamera = some cam) (hi : s.mCameraItem = some item)
    (hf : item.isFrozen = false) :
    s.keyPressEvent ops Key.W = Except.ok { s with theCamera := some { cam with
        position := cam.position + (7 / 4 : ℚ) * ops.forward cam.orientation } } ∧
      s.keyPressEvent ops Key.S = Except.ok { s with theCamera := some { cam with
        position := cam.position - (7 / 4 : ℚ) * ops.forward cam.orientation } } ∧
      s.keyPressEvent ops Key.D = Except.ok { s with theCamera := some { cam with
        position := cam.position + (7 / 4 : ℚ) * ops.right cam.orientation } } ∧
      s.keyPressEvent ops Key.A = Except.ok { s with theCamera := some { cam with
        position := cam.position - (7 / 4 : ℚ) * ops.right cam.orientation } } ∧
      (∃ s1, s.keyPressEvent ops Key.W = Except.ok s1 ∧
        s1.keyPressEvent ops Key.S = Except.ok s) ∧
      (∃ s1, s.keyPressEvent ops Key.D = Except.ok s1 ∧
        s1.keyPressEvent ops Key.A = Except.ok s) := by
  have hW : s.keyPressEvent ops Key.W = Except.ok { s with theCamera := some { cam with
      position := cam.position + (7 / 4 : ℚ) * ops.forward cam.orientation } } := by
    simp [keyPressEvent, cameraItem, hc, hi, hf, Camera.incPosition]
  have hD : s.keyPressEvent ops Key.D = Except.ok { s with theCamera := some { cam with
      position := cam.position + (7 / 4 : ℚ) * ops.right cam.orientation } } := by
    simp [keyPressEvent, cameraItem, hc, hi, hf, Camera.incPosition]
  refine ⟨hW, ?_, hD, ?_, ⟨_, hW, ?_⟩, ⟨_, hD, ?_⟩⟩
  · simp [keyPressEvent, cameraItem, hc, hi, hf, Camera.incPosition, Vec3f.add_smul_neg]
  · simp [keyPressEvent, cameraItem, hc, hi, hf, Camera.incPosition, Vec3f.add_smul_neg]
  · cases s
    cases cam
    simp only at hc hi
    subst hc
    simp [keyPressEvent, cameraItem, hi, hf, Camera.incPosition, Vec3f.add_smul_add_smul_neg]
  · cases s
    cases cam
    simp only at hc hi
    subst hc
    simp [keyPressEvent, cameraItem, hi, hf, Camera.incPosition, Vec3f.add_smul_add_smul_neg]

/-- C3: `keyPressEvent` with a key other than X and `settingsValueChanged` with a key other
than `GraphicsCameraWireframe` leave the camera mode as it was; the calls return whenever
the pointers they dereference are not null. -/
theorem cameraMode_unchanged (ops : CameraOps) (s : Terrain3D) (ev : Key) (key : Settings.Key)
    (value : QVariant) (hev : ev ≠ Key.X) (hkey : key ≠ Settings.Key.GraphicsCameraWireframe) :
    (∀ s1, s.keyPressEvent ops ev = Except.ok s1 → s1.cameraMode = s.cameraMode) ∧
      (∀ s1, s.settingsValueChanged key value = Except.ok s1 → s1.cameraMode = s.cameraMode) ∧
      (s.theCamera = none ∨ s.mCameraItem ≠ none → ∃ s1, s.keyPressEvent ops ev = Except.ok s1) ∧
      (s.theCamera ≠ none → ∃ s1, s.settingsValueChanged key value = Except.ok s1) := by
  refine ⟨?_, ?_, ?_, ?_⟩
  · intro s1 h1
    cases hc : s.theCamera with
    | none =>
      cases ev <;>
        simp [keyPressEvent, hc, toggleFullscreen_eq, close, toggleCaptureCursor, requestRestart,
          emit] at h1 <;> subst h1 <;> simp [cameraMode, hc]
    | some cam =>
      cases hi : s.mCameraItem with
      | none => simp [keyPressEvent, hc, hi, cameraItem] at h1
      | some item =>
        cases hf : item.isFrozen <;> cases ev <;>
          first
          | exact absurd rfl hev
          | (simp [keyPressEvent, hc, hi, hf, cameraItem, toggleFullscreen_eq, close,
              toggleCaptureCursor, requestRestart, emit, Camera.incPosition] at h1
             subst h1
             simp [cameraMode, hc])
  · intro s1 h1
    cases hc : s.theCamera with
    | none =>
      cases key <;>
        first
        | exact absurd rfl hkey
        | (simp [settingsValueChanged, caseWorldGeneratorSize, camera, hc] at h1
           try (subst h1; simp [cameraMode, hc]))
    | some cam =>
      cases key <;>
        first
        | exact absurd rfl hkey
        | (simp [settingsValueChanged, caseWorldGeneratorSize, camera, hc, Camera.setPosition,
            Camera.setFieldOfView] at h1
           subst h1
           simp [cameraMode, hc])
  · intro h
    cases hc : s.theCamera with
    | none =>
      cases ev <;> simp [keyPressEvent, hc, toggleFullscreen_eq]
    | some cam =>
      cases hi : s.mCameraItem with
      | none => simp [hc, hi] at h
      | some item =>
        cases hf : item.isFrozen <;> cases ev <;>
          first
          | exact absurd rfl hev
          | simp [keyPressEvent, hc, hi, hf, cameraItem, toggleFullscreen_eq]
  · intro h
    cases hc : s.theCamera with
    | none => exact absurd hc h
    | some cam =>
      cases key <;> simp [settingsValueChanged, caseWorldGeneratorSize, camera, hc]

/-- C10: while the camera item is frozen, `keyPressEvent` with W, S, A, D or X and
`updateCursorPos` (whatever the cursor-capture flag, the mouse button and the window focus)
return the state they were given, so camera position, mode, orientation and
`mPreviouslyHadFocus` are unchanged; Escape, F1, F5, F10 and F11 still run `close`,
`toggleCaptureCursor`, `requestRestart`, the emission of `toggleSettingsMenu` and
`toggleFullscreen`. -/
theorem frozen_item_blocks_camera_input (ops : CameraOps) (env : Ambient) (s : Terrain3D)
    (item : CameraItem) (hi : s.mCameraItem = some item) (hf : item.isFrozen = true) :
    (∀ ev, ev ∈ [Key.W, Key.S, Key.A, Key.D, Key.X] → s.keyPressEvent ops ev = Except.ok s) ∧
      s.updateCursorPos ops env = Except.ok s ∧
      s.keyPressEvent ops Key.Escape = Except.ok s.close ∧
      s.keyPressEvent ops Key.F1 = Except.ok s.toggleCaptureCursor ∧
      s.keyPressEvent ops Key.F5 = Except.ok s.requestRestart ∧
      s.keyPressEvent ops Key.F10 = Except.ok (s.emit Signal.toggleSettingsMenu) ∧
      s.keyPressEvent ops Key.F11 = s.toggleFullscreen ∧
      (∃ s1, s.toggleFullscreen = Except.ok s1) := by
  refine ⟨?_, ?_, ?_, ?_, ?_, ?_, ?_, ⟨_, toggleFullscreen_eq s⟩⟩
  · intro ev hev
    simp only [List.mem_cons, List.mem_singleton, List.not_mem_nil, or_false] at hev
    rcases hev with h | h | h | h | h <;> subst h <;>
      cases hc : s.theCamera <;> simp [keyPressEvent, hc, hi, hf, cameraItem]
  · simp [updateCursorPos, cameraItem, hi, hf]
  all_goals
    cases hc : s.theCamera <;> simp [keyPressEvent, hc, hi, hf, cameraItem]

/-- With a camera present, `settingsValueChanged` returns, and it keeps the camera present
and everything but camera and window as it was. -/
theorem settingsValueChanged_frame (s : Terrain3D) (key : Settings.Key) (value : QVariant)
    (c : Camera) (hc : s.theCamera = some c) :
    ∃ s1 c1, s.settingsValueChanged key value = Except.ok s1 ∧ s1.theCamera = some c1 ∧
      c1.boundToWorld = c.boundToWorld ∧ c1.configuration = c.configuration ∧
      s1.mCameraItem = s.mCameraItem ∧ s1.mMainSettings = s.mMainSettings ∧
      s1.mWorld = s.mWorld := by
  cases key <;>
    simp [settingsValueChanged, caseWorldGeneratorSize, camera, hc, Camera.setPosition,
      Camera.setFieldOfView, Camera.setMode]

/-- The same for the loop of `loadUserSettings`. -/
theorem loadKeys_frame (keys : List Settings.Key) :
    ∀ (s : Terrain3D) (c : Camera), s.theCamera = some c →
      ∃ s1 c1, s.loadKeys keys = Except.ok s1 ∧ s1.theCamera = some c1 ∧
        c1.boundToWorld = c.boundToWorld ∧ c1.configuration = c.configuration ∧
        s1.mCameraItem = s.mCameraItem ∧ s1.mMainSettings = s.mMainSettings ∧
        s1.mWorld = s.mWorld := by
  induction keys with
  | nil =>
    intro s c hc
    exact ⟨s, c, rfl, hc, rfl, rfl, rfl, rfl, rfl⟩
  | cons key keys ih =>
    intro s c hc
    obtain ⟨s1, c1, h1, hc1, hb1, hg1, hi1, hs1, hw1⟩ :=
      settingsValueChanged_frame s key (s.mMainSettings.value key) c hc
    obtain ⟨s2, c2, h2, hc2, hb2, hg2, hi2, hs2, hw2⟩ := ih s1 c1 hc1
    refine ⟨s2, c2, ?_, hc2, hb2.trans hb1, hg2.trans hg1, hi2.trans hi1, hs2.trans hs1,
      hw2.trans hw1⟩
    simp [loadKeys, h1, h2]

/-- What `init` returns: it never fails; the camera it leaves is bound to the world and
initialised with the camera configuration, the world is what `World::init` left, and the
camera item is untouched. -/
theorem init_returns (ops : CameraOps) (s : Terrain3D) :
    ∃ s1 cam, s.init ops = Except.ok s1 ∧ s1.theCamera = some cam ∧
      cam.boundToWorld = true ∧ cam.configuration = some s.buildCameraConfiguration ∧
      s1.mWorld = (s.mWorld.init s.buildWorldConfiguration).2 ∧
      s1.mCameraItem = s.mCameraItem := by
  let sA : Terrain3D := { s with
    window := Window.show { s.window with
      format := some { majorVersion := 4, minorVersion := 2, compatibilityProfile := true }
      persistentOpenGLContext := true
      persistentSceneGraph := true
      sizeRootObjectToView := true
      sourceLoaded := true }
    theCamera := some (Camera.new ops) }
  obtain ⟨s3, c3, h3, hc3, _, _, hi3, hs3, hw3⟩ :=
    loadKeys_frame Settings.Key.all sA (Camera.new ops) rfl
  have hi : s3.mCameraItem = s.mCameraItem := hi3
  have hs : s3.mMainSettings = s.mMainSettings := hs3
  have hw : s3.mWorld = s.mWorld := hw3
  have hload : Terrain3D.loadUserSettings sA = Except.ok s3 := h3
  have hinit : s.init ops = Except.ok
      { s3 with
        mWorld := (s3.mWorld.init s3.buildWorldConfiguration).2
        theCamera := some (c3.setWorld.init ops s3.buildCameraConfiguration)
        backgroundUpdater := { connected := true, running := true } } := by
    simp only [init]
    rw [show ({ ({ s with window := Window.show { s.window with
        format := some { majorVersion := 4, minorVersion := 2, compatibilityProfile := true }
        persistentOpenGLContext := true
        persistentSceneGraph := true
        sizeRootObjectToView := true
        sourceLoaded := true } } : Terrain3D) with theCamera := some (Camera.new ops) }
        : Terrain3D) = sA from rfl]
    simp [hload, camera, hc3, buildCameraConfiguration]
  refine ⟨_, _, hinit, rfl, ?_, ?_, ?_, hi⟩
  · simp [Camera.init, Camera.setWorld]
  · simp [Camera.init, Camera.setWorld, buildCameraConfiguration, hs]
  · simp [buildWorldConfiguration, hs, hw]

/-- The constructor, `init` and a first `willUpdate` that finds an unfrozen camera item lead
from `zeroSettings` to `startedApp`. -/
theorem startedApp_reached (env : Ambient) (h : env.findChild = some ⟨false⟩) :
    (Terrain3D.new zeroSettings).init fixedAxesOps =
        Except.ok { startedApp with mCameraItem := none } ∧
      willUpdate fixedAxesOps env { startedApp with mCameraItem := none } =
        Except.ok startedApp := by
  constructor
  · simp [init, Terrain3D.new, loadUserSettings, loadKeys, Settings.Key.all,
      settingsValueChanged, caseWorldGeneratorSize, camera, zeroSettings, Settings.addListener,
      Camera.new, Camera.setPosition, Camera.setFieldOfView, Camera.setMode, Camera.setWorld,
      Camera.init, buildCameraConfiguration, buildWorldConfiguration, World.init,
      Window.created, Window.show, Window.resize, Window.showNormal, Window.showFullScreen,
      fixedAxesOps, startedApp, startedCamera]
  · simp [willUpdate, startedApp, h]

/-- C9 (the code at the failing input): after the constructor and `init`, and before any
`willUpdate`, `mCameraItem` is still null while `theCamera` is not, and `keyPressEvent`
with any key dereferences the null `mCameraItem`. -/
theorem keyPressEvent_after_init_null_item (ops : CameraOps) (settings : Settings) (ev : Key) :
    ∃ s1, (Terrain3D.new settings).init ops = Except.ok s1 ∧ s1.mCameraItem = none ∧
      s1.theCamera ≠ none ∧ s1.keyPressEvent ops ev = Except.error Fault.nullCameraItem := by
  obtain ⟨s1, cam, h1, hc, _, _, _, hi⟩ := init_returns ops (Terrain3D.new settings)
  have hi1 : s1.mCameraItem = none := hi
  refine ⟨s1, h1, hi1, by simp [hc], ?_⟩
  simp [keyPressEvent, hc, cameraItem, hi1]

/-- C2 (as amended): `init` and the restart key R of the GLFW `onKey` discard the outcome of
`World::init`: they always go on to bind and initialise the camera, and when `World::init`
fails with a configuration error the world is the one from before the call. -/
theorem reinit_ignores_world_init_outcome (ops : CameraOps) (s : Terrain3D)
    (g : GlfwTerrain3D) (action : Int) :
    (∃ s1 cam, s.init ops = Except.ok s1 ∧ s1.theCamera = some cam ∧
      cam.boundToWorld = true ∧ cam.configuration = some s.buildCameraConfiguration ∧
      ((s.mWorld.init s.buildWorldConfiguration).1 = InitResult.configurationError →
        s1.mWorld = s.mWorld)) ∧
    ((g.onKey ops Key.R action).mCamera = g.mCamera.initWithWorld ops ∧
      ((g.mWorld.init g.worldConfiguration).1 = InitResult.configurationError →
        (g.onKey ops Key.R action).mWorld = g.mWorld)) := by
  constructor
  · obtain ⟨s1, cam, h1, hc, hb, hg, hw, _⟩ := init_returns ops s
    refine ⟨s1, cam, h1, hc, hb, hg, ?_⟩
    intro hfail
    rw [hw]
    unfold World.init at hfail ⊢
    split at hfail
    · simp [*]
    · simp at hfail
  · refine ⟨rfl, ?_⟩
    intro hfail
    show (g.mWorld.init g.worldConfiguration).2 = g.mWorld
    unfold World.init at hfail ⊢
    split at hfail
    · simp [*]
    · simp at hfail

/-- C2 (counterexample): with every setting zero, `World::init` fails on generator size 0,
and `init` still returns with the camera bound to the world and initialised; on the GLFW
side, key R with invalid world parameters still re-initialises the camera, whose position
goes from (3, 4, 5) to the default. -/
theorem init_binds_camera_after_failed_world_init :
    ((Terrain3D.new zeroSettings).mWorld.init
        (Terrain3D.new zeroSettings).buildWorldConfiguration).1 =
        InitResult.configurationError ∧
      (Terrain3D.new zeroSettings).init fixedAxesOps =
        Except.ok { startedApp with mCameraItem := none } ∧
      startedCamera.boundToWorld = true ∧
      startedCamera.configuration = some ⟨0, 0, 0, 0⟩ ∧
      (glfwApp.mWorld.init glfwApp.worldConfiguration).1 = InitResult.configurationError ∧
      (glfwApp.onKey fixedAxesOps Key.R 1).mCamera.boundToWorld = true ∧
      (glfwApp.onKey fixedAxesOps Key.R 1).mCamera.position = ⟨0, 0, 0⟩ := by
  refine ⟨?_, (startedApp_reached ⟨true, false, ⟨0, 0⟩, some ⟨false⟩⟩ rfl).1, rfl, rfl, ?_,
    rfl, rfl⟩
  · simp [World.init, buildWorldConfiguration, Terrain3D.new, zeroSettings,
      Settings.addListener]
  · simp [World.init, glfwApp]

/-- C1 at `startedApp`, the spec's scenario (position (0,0,0), forward (0,0,-1)): W moves the
camera to (0, 0, -1.75), and W followed by S returns `startedApp`. -/
theorem keyPressEvent_moves_camera_at_startedApp :
    (startedApp.keyPressEvent fixedAxesOps Key.W).map cameraPosition =
        Except.ok (some ⟨0, 0, -(7 / 4)⟩) ∧
      ∃ s1, startedApp.keyPressEvent fixedAxesOps Key.W = Except.ok s1 ∧
        s1.keyPressEvent fixedAxesOps Key.S = Except.ok startedApp := by
  have h := keyPressEvent_moves_camera fixedAxesOps startedApp startedCamera ⟨false⟩ rfl rfl rfl
  refine ⟨?_, h.2.2.2.2.1⟩
  rw [h.1]
  simp [Except.map, cameraPosition, startedCamera, fixedAxesOps, Vec3f.add_eq, Vec3f.smul_eq]

/-- C2 (as amended) at the constructor state with `zeroSettings` and at `glfwApp`, where
`World::init` fails: the camera is bound and initialised, the world is as before. -/
theorem reinit_ignores_world_init_outcome_at_zeroSettings :
    (∃ s1 cam, (Terrain3D.new zeroSettings).init fixedAxesOps = Except.ok s1 ∧
      s1.theCamera = some cam ∧ cam.boundToWorld = true ∧
      s1.mWorld = (Terrain3D.new zeroSettings).mWorld) ∧
    (glfwApp.onKey fixedAxesOps Key.R 1).mWorld = glfwApp.mWorld := by
  obtain ⟨⟨s1, cam, h1, hc, hb, _, hw⟩, _, hg⟩ :=
    reinit_ignores_world_init_outcome fixedAxesOps (Terrain3D.new zeroSettings) glfwApp 1
  refine ⟨⟨s1, cam, h1, hc, hb, hw ?_⟩, hg ?_⟩
  · simp [World.init, buildWorldConfiguration, Terrain3D.new, zeroSettings,
      Settings.addListener]
  · simp [World.init, glfwApp]

/-- C3 at `startedApp`, for key W and for the setting `GraphicsCameraFOV`. -/
theorem cameraMode_unchanged_at_startedApp :
    (∀ s1, startedApp.keyPressEvent fixedAxesOps Key.W = Except.ok s1 →
        s1.cameraMode = startedApp.cameraMode) ∧
      (∀ s1, startedApp.settingsValueChanged Settings.Key.GraphicsCameraFOV ⟨90, 90, true⟩ =
          Except.ok s1 → s1.cameraMode = startedApp.cameraMode) ∧
      (∃ s1, startedApp.keyPressEvent fixedAxesOps Key.W = Except.ok s1) ∧
      (∃ s1, startedApp.settingsValueChanged Settings.Key.GraphicsCameraFOV ⟨90, 90, true⟩ =
          Except.ok s1) := by
  have h := cameraMode_unchanged fixedAxesOps startedApp Key.W Settings.Key.GraphicsCameraFOV
    ⟨90, 90, true⟩ (by decide) (by decide)
  exact ⟨h.1, h.2.1, h.2.2.1 (Or.inr (by simp [startedApp])), h.2.2.2 (by simp [startedApp])⟩

/-- C4 at `startedApp`, whose camera is in mode `Normal`. -/
theorem toggleWireframe_flips_mode_at_startedApp :
    ∃ s1 s2, startedApp.toggleWireframe = Except.ok s1 ∧
      s1.toggleWireframe = Except.ok s2 ∧
      s1.cameraMode = some Mode.WireFrame ∧
      s2.cameraMode = some Mode.Normal ∧
      (s1.mMainSettings.value Settings.Key.GraphicsCameraWireframe).toBool = true := by
  obtain ⟨s1, s2, h1, h2, hn, _, h3, hv, _⟩ :=
    toggleWireframe_flips_mode startedApp startedCamera rfl
  exact ⟨s1, s2, h1, h2, hn rfl, h3, hv.2 (hn rfl)⟩

/-- C5 at `startedApp`: the events for z, x, y in that order. -/
theorem settingsValueChanged_position_at_startedApp :
    startedApp.deliver [(Settings.Key.GraphicsCameraPositionZ, ⟨3, 3, true⟩),
        (Settings.Key.GraphicsCameraPositionX, ⟨1, 1, true⟩),
        (Settings.Key.GraphicsCameraPositionY, ⟨2, 2, true⟩)] =
      Except.ok { startedApp with theCamera := some { startedCamera with
        position := ⟨1, 2, 3⟩ } } :=
  (settingsValueChanged_position startedApp startedCamera ⟨1, 1, true⟩ ⟨2, 2, true⟩
    ⟨3, 3, true⟩ rfl).2.2.2 _
    ((List.Perm.swap _ _ _).trans ((List.Perm.swap _ _ _).cons _))

/-- C6 at `startedApp`, for the key `WorldGeneratorFaultCount`, which has no case. -/
theorem settingsValueChanged_world_key_at_startedApp :
    startedApp.settingsValueChanged Settings.Key.WorldGeneratorFaultCount ⟨7, 7, true⟩ =
      Except.ok startedApp :=
  settingsValueChanged_world_key startedApp Settings.Key.WorldGeneratorFaultCount ⟨7, 7, true⟩
    (by decide)

/-- C7 at `startedApp`, for the value true. -/
theorem settingsValueChanged_wireframe_at_startedApp :
    ∃ s1, s1 = { startedApp with theCamera := some { startedCamera with
          mode := Mode.WireFrame } } ∧
      startedApp.settingsValueChanged Settings.Key.GraphicsCameraWireframe ⟨1, 1, true⟩ =
        Except.ok s1 ∧
      s1.settingsValueChanged Settings.Key.GraphicsCameraWireframe ⟨1, 1, true⟩ =
        Except.ok s1 :=
  settingsValueChanged_wireframe startedApp startedCamera ⟨1, 1, true⟩ rfl

/-- C10 at `frozenApp`, with the cursor moved and the window active. -/
theorem frozen_item_blocks_camera_input_at_frozenApp :
    frozenApp.keyPressEvent fixedAxesOps Key.W = Except.ok frozenApp ∧
      frozenApp.keyPressEvent fixedAxesOps Key.X = Except.ok frozenApp ∧
      frozenApp.updateCursorPos fixedAxesOps focusedTick.env = Except.ok frozenApp ∧
      frozenApp.keyPressEvent fixedAxesOps Key.F5 = Except.ok frozenApp.requestRestart := by
  have h := frozen_item_blocks_camera_input fixedAxesOps focusedTick.env frozenApp ⟨true⟩
    rfl rfl
  exact ⟨h.1 Key.W (by decide), h.1 Key.X (by decide), h.2.1, h.2.2.2.2.1⟩

end Terrain3D

end t3d
